import Mathlib

/-!
Verification of the appointment scheduler of Clinica SaudeViva
(`scheduler.py` together with the `storage.py` load/save contract).

Modelling choices, all translated from the source:

* A Python `datetime` is represented by the number of minutes since
  0001-01-01T00:00 (Python's `datetime.min`, a Monday in the proleptic
  Gregorian calendar).  All datetimes handled by the program are produced
  by `datetime.fromisoformat` on `AAAA-MM-DD` / `HH:MM` input, so minute
  granularity is exact.  `dt.weekday()` is `dt / 1440 % 7` (day 0 is a
  Monday, as in Python), `dt.time()` is `dt % 1440`, adding a
  `timedelta(minutes=30)` is `dt + 30`, and `datetime` comparison is the
  numeric order.
* A stored record (`dict` in the JSON file) is the structure `Consulta`.
  The field `data_hora_inicio`, a string in the file, is represented by
  its `datetime.fromisoformat` value: the program writes it with
  `isoformat()` and reads it back with `fromisoformat`, an exact
  round-trip.
* `storage.load_consultas` / `storage.save_consultas` are modelled by
  threading the stored list explicitly and recording an event trace
  (`StoreEvent.load`, `StoreEvent.save`) in the order the calls happen,
  so that "no save performed" claims are statable.
-/

/-- Events of the `storage` module: one `load` per `storage.load_consultas`
call and one `save` per `storage.save_consultas` call, in order. -/
inductive StoreEvent where
  | load : StoreEvent
  | save : StoreEvent
deriving DecidableEq, Repr

/-- A stored appointment record, one `dict` of the JSON array.
`data_hora_inicio` holds the parsed value of the stored ISO string,
in minutes since 0001-01-01T00:00. -/
structure Consulta where
  id : Nat
  paciente : String
  data_hora_inicio : Nat
  duracao_min : Nat
  status : String
deriving DecidableEq, Repr

/-! ### Calendar arithmetic backing `datetime.fromisoformat` -/

/-- Gregorian leap-year test, as in Python's `calendar.isleap`. -/
def isLeap (y : Nat) : Bool :=
  (y % 4 == 0 && y % 100 != 0) || y % 400 == 0

/-- Days in a month of year `y` (proleptic Gregorian). -/
def daysInMonth (y m : Nat) : Nat :=
  if m = 2 then (if isLeap y then 29 else 28)
  else if m = 4 ∨ m = 6 ∨ m = 9 ∨ m = 11 then 30
  else 31

/-- Cumulative day count before month `m` in a non-leap year. -/
def monthPrefixDays (m : Nat) : Nat :=
  [0, 31, 59, 90, 120, 151, 181, 212, 243, 273, 304, 334].getD (m - 1) 0

/-- Day number of the date `y-m-d`, with 0001-01-01 as day 0 (Python's
`date.toordinal() - 1`).  0001-01-01 is a Monday, so `% 7` is `weekday()`. -/
def daysFromCivil (y m d : Nat) : Nat :=
  365 * (y - 1) + (y - 1) / 4 - (y - 1) / 100 + (y - 1) / 400
    + monthPrefixDays m + (if 2 < m ∧ isLeap y then 1 else 0) + (d - 1)

/-- Minutes since 0001-01-01T00:00 of the timestamp `y-m-d hh:mm`. -/
def mkDT (y m d hh mm : Nat) : Nat :=
  daysFromCivil y m d * 1440 + hh * 60 + mm

/-- `dt.weekday()`: 0 = Monday .. 6 = Sunday. -/
def weekday (dt : Nat) : Nat := dt / 1440 % 7

/-- `dt.time()` as minutes past midnight. -/
def timeOfDay (dt : Nat) : Nat := dt % 1440

/-- Numeric value of a decimal digit character. -/
def digitVal (c : Char) : Nat := c.toNat - 48

/-- Parse `AAAA-MM-DD` into `(year, month, day)`, requiring a real
proleptic-Gregorian calendar date, as `datetime.fromisoformat` does. -/
def parseDate (s : String) : Option (Nat × Nat × Nat) :=
  match s.data with
  | [y1, y2, y3, y4, s1, m1, m2, s2, d1, d2] =>
    if y1.isDigit && y2.isDigit && y3.isDigit && y4.isDigit &&
        s1 == '-' && m1.isDigit && m2.isDigit &&
        s2 == '-' && d1.isDigit && d2.isDigit then
      let y := 1000 * digitVal y1 + 100 * digitVal y2 + 10 * digitVal y3 + digitVal y4
      let m := 10 * digitVal m1 + digitVal m2
      let d := 10 * digitVal d1 + digitVal d2
      if 1 ≤ y ∧ 1 ≤ m ∧ m ≤ 12 ∧ 1 ≤ d ∧ d ≤ daysInMonth y m then
        some (y, m, d)
      else none
    else none
  | _ => none

/-- Parse `HH:MM` into `(hour, minute)` with `hour ≤ 23`, `minute ≤ 59`. -/
def parseTime (s : String) : Option (Nat × Nat) :=
  match s.data with
  | [h1, h2, c1, mi1, mi2] =>
    if h1.isDigit && h2.isDigit && c1 == ':' && mi1.isDigit && mi2.isDigit then
      let hh := 10 * digitVal h1 + digitVal h2
      let mm := 10 * digitVal mi1 + digitVal mi2
      if hh ≤ 23 ∧ mm ≤ 59 then some (hh, mm) else none
    else none
  | _ => none

/-- `datetime.fromisoformat(data_str + "T" + hora_str)` on the program's
`AAAA-MM-DD` / `HH:MM` input format; `none` models the `ValueError`. -/
def fromisoformat (data_str hora_str : String) : Option Nat :=
  match parseDate data_str, parseTime hora_str with
  | some (y, m, d), some (hh, mm) => some (mkDT y m d hh mm)
  | _, _ => none

/-! ### `scheduler.py` -/

/-- `CLINIC_OPEN = time(8, 0)`, as minutes past midnight. -/
def CLINIC_OPEN : Nat := 8 * 60

/-- `CLINIC_CLOSE = time(18, 0)`, as minutes past midnight. -/
def CLINIC_CLOSE : Nat := 18 * 60

/-- `CONSULTA_DURATION = timedelta(minutes=30)`. -/
def CONSULTA_DURATION : Nat := 30

/-- `is_within_working_hours(dt_consulta)` of `scheduler.py`. -/
def is_within_working_hours (dt_consulta : Nat) : Bool × String :=
  if 5 ≤ weekday dt_consulta then
    (false, "Agendamentos são permitidos apenas de segunda a sexta.")
  else
    let start_time := timeOfDay dt_consulta
    let end_time := timeOfDay (dt_consulta + CONSULTA_DURATION)
    if CLINIC_OPEN ≤ start_time ∧ end_time ≤ CLINIC_CLOSE then
      (true, "")
    else
      (false, "O horário deve ser entre 08:00 e 18:00.")

/-- `check_availability(consultas, dt_consulta_inicio)` of `scheduler.py`:
scan in order, skip cancelled records, stop at the first overlap. -/
def check_availability (consultas : List Consulta) (dt_consulta_inicio : Nat) :
    Bool × String :=
  match consultas with
  | [] => (true, "")
  | consulta :: rest =>
    if consulta.status = "cancelada" then
      check_availability rest dt_consulta_inicio
    else
      let inicio_existente := consulta.data_hora_inicio
      let fim_existente := inicio_existente + CONSULTA_DURATION
      if dt_consulta_inicio < fim_existente ∧
          dt_consulta_inicio + CONSULTA_DURATION > inicio_existente then
        (false, "Horário em conflito com a consulta de " ++ consulta.paciente ++ ".")
      else
        check_availability rest dt_consulta_inicio

/-- `agendar_consulta(paciente, data_str, hora_str)`, with the stored list
passed in explicitly and the storage calls traced.  Returns
`(record-or-none, message, stored list after the call, storage events)`. -/
def agendar_consulta (paciente data_str hora_str : String)
    (stored : List Consulta) :
    Option Consulta × String × List Consulta × List StoreEvent :=
  match fromisoformat data_str hora_str with
  | none =>
    (none, "Formato de data ou hora inválido. Use AAAA-MM-DD e HH:MM.",
      stored, [])
  | some dt_consulta =>
    if (is_within_working_hours dt_consulta).1 then
      let consultas := stored
      if (check_availability consultas dt_consulta).1 then
        let nova_consulta : Consulta :=
          ⟨consultas.length + 1, paciente, dt_consulta, 30, "marcada"⟩
        (some nova_consulta, "Consulta agendada com sucesso!",
          consultas ++ [nova_consulta], [StoreEvent.load, StoreEvent.save])
      else
        (none, (check_availability consultas dt_consulta).2,
          stored, [StoreEvent.load])
    else
      (none, (is_within_working_hours dt_consulta).2, stored, [])

/-- The record `consulta` with its `status` flipped to `"cancelada"`
(the in-place `consulta['status'] = 'cancelada'` mutation). -/
def setCancelada (c : Consulta) : Consulta :=
  ⟨c.id, c.paciente, c.data_hora_inicio, c.duracao_min, "cancelada"⟩

/-- The scan loop of `cancelar_consulta`: find the first record with the
given id and status `"marcada"`, flip it to `"cancelada"`, and return the
updated list together with the flipped record; `none` when no record
matches. -/
def cancelScan (consultas : List Consulta) (consulta_id : Nat) :
    Option (List Consulta × Consulta) :=
  match consultas with
  | [] => none
  | consulta :: rest =>
    if consulta.id = consulta_id ∧ consulta.status = "marcada" then
      some (setCancelada consulta :: rest, setCancelada consulta)
    else
      match cancelScan rest consulta_id with
      | none => none
      | some (rest2, found) => some (consulta :: rest2, found)

/-- `cancelar_consulta(consulta_id)`, with the stored list passed in
explicitly and the storage calls traced. -/
def cancelar_consulta (consulta_id : Nat) (stored : List Consulta) :
    Bool × String × List Consulta × List StoreEvent :=
  match cancelScan stored consulta_id with
  | some (consultas2, encontrada) =>
    (true,
      "Consulta " ++ toString consulta_id ++ " de " ++ encontrada.paciente
        ++ " cancelada.",
      consultas2, [StoreEvent.load, StoreEvent.save])
  | none =>
    (false,
      "Consulta ID " ++ toString consulta_id
        ++ " não encontrada ou já cancelada.",
      stored, [StoreEvent.load])

/-- `listar_consultas()`: load the stored list and keep the
`status == 'marcada'` records.  Returns the list and the storage trace. -/
def listar_consultas (stored : List Consulta) :
    List Consulta × List StoreEvent :=
  (stored.filter (fun c => c.status = "marcada"), [StoreEvent.load])

/-! ### Reachable repository states -/

/-- One scheduler operation on the stored state: any `agendar_consulta`
call or any `cancelar_consulta` call. -/
inductive Step : List Consulta → List Consulta → Prop where
  | sched (p d h : String) (s : List Consulta) :
      Step s (agendar_consulta p d h s).2.2.1
  | cancel (cid : Nat) (s : List Consulta) :
      Step s (cancelar_consulta cid s).2.2.1

/-- Stored states reachable from the empty file through scheduler calls. -/
inductive Reachable : List Consulta → Prop where
  | empty : Reachable []
  | step {s t : List Consulta} : Reachable s → Step s t → Reachable t

/-- The non-conflict relation the schedule honours between two stored
records: if both are `"marcada"`, their half-open 30-minute slots
`[start, start+30)` do not overlap. -/
def SchedRel (a b : Consulta) : Prop :=
  a.status = "marcada" → b.status = "marcada" →
    ¬(a.data_hora_inicio < b.data_hora_inicio + 30 ∧
      b.data_hora_inicio < a.data_hora_inicio + 30)

/-! ### Helper lemmas -/

theorem check_availability_sound (l : List Consulta) (dt : Nat)
    (h : (check_availability l dt).1 = true) :
    ∀ c ∈ l, c.status ≠ "cancelada" →
      ¬(dt < c.data_hora_inicio + CONSULTA_DURATION ∧
        dt + CONSULTA_DURATION > c.data_hora_inicio) := by
  induction l with
  | nil => intro c hc; simp at hc
  | cons a rest ih =>
    intro c hc hnc
    unfold check_availability at h
    by_cases ha : a.status = "cancelada"
    · rw [if_pos ha] at h
      rcases List.mem_cons.mp hc with hceq | hcr
      · subst hceq; exact absurd ha hnc
      · exact ih h c hcr hnc
    · rw [if_neg ha] at h
      by_cases hov : dt < a.data_hora_inicio + CONSULTA_DURATION ∧
          dt + CONSULTA_DURATION > a.data_hora_inicio
      · rw [if_pos hov] at h; simp at h
      · rw [if_neg hov] at h
        rcases List.mem_cons.mp hc with hceq | hcr
        · subst hceq; exact hov
        · exact ih h c hcr hnc

theorem agendar_state_cases (p d h : String) (s : List Consulta) :
    (agendar_consulta p d h s).2.2.1 = s ∨
    ∃ dt, fromisoformat d h = some dt ∧
      (check_availability s dt).1 = true ∧
      (agendar_consulta p d h s).2.2.1 =
        s ++ [⟨s.length + 1, p, dt, 30, "marcada"⟩] := by
  unfold agendar_consulta
  cases hp : fromisoformat d h with
  | none => left; rfl
  | some dt =>
    by_cases hw : (is_within_working_hours dt).1
    · by_cases hav : (check_availability s dt).1
      · right; exact ⟨dt, rfl, hav, by simp [hw, hav]⟩
      · left; simp [hw, hav]
    · left; simp [hw]

theorem cancelScan_mem (s : List Consulta) (cid : Nat) (l2 : List Consulta)
    (c : Consulta) (h : cancelScan s cid = some (l2, c)) :
    ∀ b ∈ l2, b ∈ s ∨ b.status = "cancelada" := by
  induction s generalizing l2 with
  | nil => simp [cancelScan] at h
  | cons a rest ih =>
    unfold cancelScan at h
    by_cases hm : a.id = cid ∧ a.status = "marcada"
    · rw [if_pos hm] at h
      injection h with h1
      injection h1 with h2 _
      subst h2
      intro b hb
      rcases List.mem_cons.mp hb with hbe | hbr
      · right; subst hbe; rfl
      · left; exact List.mem_cons_of_mem _ hbr
    · rw [if_neg hm] at h
      cases hr : cancelScan rest cid with
      | none => rw [hr] at h; simp at h
      | some pr =>
        obtain ⟨rest2, c2⟩ := pr
        rw [hr] at h
        injection h with h1
        injection h1 with h2 h3
        subst h2; subst h3
        intro b hb
        rcases List.mem_cons.mp hb with hbe | hbr
        · left; subst hbe; exact List.mem_cons_self _ _
        · rcases ih rest2 hr b hbr with hbs | hbc
          · left; exact List.mem_cons_of_mem _ hbs
          · right; exact hbc

theorem cancelScan_pairwise (s : List Consulta) (cid : Nat) (l2 : List Consulta)
    (c : Consulta) (h : cancelScan s cid = some (l2, c))
    (hp : s.Pairwise SchedRel) : l2.Pairwise SchedRel := by
  induction s generalizing l2 with
  | nil => simp [cancelScan] at h
  | cons a rest ih =>
    rcases List.pairwise_cons.mp hp with ⟨ha, hrest⟩
    unfold cancelScan at h
    by_cases hm : a.id = cid ∧ a.status = "marcada"
    · rw [if_pos hm] at h
      injection h with h1
      injection h1 with h2 _
      subst h2
      refine List.pairwise_cons.mpr ⟨?_, hrest⟩
      intro b _ hcanc
      simp [setCancelada] at hcanc
    · rw [if_neg hm] at h
      cases hr : cancelScan rest cid with
      | none => rw [hr] at h; simp at h
      | some pr =>
        obtain ⟨rest2, c2⟩ := pr
        rw [hr] at h
        injection h with h1
        injection h1 with h2 h3
        subst h2; subst h3
        refine List.pairwise_cons.mpr ⟨?_, ih rest2 hr hrest⟩
        intro b hb
        rcases cancelScan_mem rest cid rest2 c2 hr b hb with hbs | hbc
        · exact ha b hbs
        · intro _ hbm; rw [hbc] at hbm; simp at hbm

theorem cancelScan_map_id (s : List Consulta) (cid : Nat) (l2 : List Consulta)
    (c : Consulta) (h : cancelScan s cid = some (l2, c)) :
    l2.map (fun x => x.id) = s.map (fun x => x.id) := by
  induction s generalizing l2 with
  | nil => simp [cancelScan] at h
  | cons a rest ih =>
    unfold cancelScan at h
    by_cases hm : a.id = cid ∧ a.status = "marcada"
    · rw [if_pos hm] at h
      injection h with h1
      injection h1 with h2 _
      subst h2
      simp [setCancelada]
    · rw [if_neg hm] at h
      cases hr : cancelScan rest cid with
      | none => rw [hr] at h; simp at h
      | some pr =>
        obtain ⟨rest2, c2⟩ := pr
        rw [hr] at h
        injection h with h1
        injection h1 with h2 h3
        subst h2; subst h3
        simp [ih rest2 hr]

theorem range'_snoc (a n : Nat) : List.range' a (n + 1) = List.range' a n ++ [a + n] := by
  induction n generalizing a with
  | zero => simp [List.range']
  | succ n ih =>
    rw [List.range'_succ, ih (a + 1), List.range'_succ]
    simp [Nat.add_assoc, Nat.add_comm 1 n]

theorem cancelScan_none (s : List Consulta) (cid : Nat)
    (h : ∀ c ∈ s, ¬(c.id = cid ∧ c.status = "marcada")) :
    cancelScan s cid = none := by
  induction s with
  | nil => rfl
  | cons a rest ih =>
    unfold cancelScan
    rw [if_neg (h a (List.mem_cons_self _ _))]
    rw [ih (fun c hc => h c (List.mem_cons_of_mem _ hc))]

theorem cancelScan_first (s : List Consulta) (cid : Nat) (i : Nat)
    (hi : i < s.length)
    (hid : (s.get ⟨i, hi⟩).id = cid)
    (hst : (s.get ⟨i, hi⟩).status = "marcada")
    (hfirst : ∀ j (hj : j < s.length), j < i →
      ¬((s.get ⟨j, hj⟩).id = cid ∧ (s.get ⟨j, hj⟩).status = "marcada")) :
    cancelScan s cid =
      some (s.set i (setCancelada (s.get ⟨i, hi⟩)),
        setCancelada (s.get ⟨i, hi⟩)) := by
  induction s generalizing i with
  | nil => simp at hi
  | cons a rest ih =>
    cases i with
    | zero =>
      unfold cancelScan
      rw [if_pos ⟨hid, hst⟩]
      rfl
    | succ j =>
      have hj : j < rest.length := Nat.lt_of_succ_lt_succ hi
      have hna : ¬(a.id = cid ∧ a.status = "marcada") :=
        hfirst 0 (Nat.succ_pos _) (Nat.succ_pos _)
      unfold cancelScan
      rw [if_neg hna]
      rw [ih j hj hid hst (fun k hk hki =>
        hfirst (k + 1) (Nat.succ_lt_succ hk) (Nat.succ_lt_succ hki))]
      rfl

/-! ### Claims -/

/-- C1: `check_availability` reports a conflict iff some record whose
status is not `"cancelada"` satisfies the half-open overlap test
`candidate_start < existing_start + 30 ∧ candidate_start + 30 > existing_start`;
touching endpoints are not a conflict, and cancelled records never
produce one. -/
theorem C1_conflict_iff (dt : Nat) (consultas : List Consulta) :
    (check_availability consultas dt).1 = false ↔
      ∃ c ∈ consultas, c.status ≠ "cancelada" ∧
        dt < c.data_hora_inicio + 30 ∧ dt + 30 > c.data_hora_inicio := by
  induction consultas with
  | nil => simp [check_availability]
  | cons a rest ih =>
    unfold check_availability
    by_cases ha : a.status = "cancelada"
    · rw [if_pos ha, ih]
      constructor
      · rintro ⟨c, hc, hnc, hov⟩
        exact ⟨c, List.mem_cons_of_mem _ hc, hnc, hov⟩
      · rintro ⟨c, hc, hnc, hov⟩
        rcases List.mem_cons.mp hc with hce | hcr
        · subst hce; exact absurd ha hnc
        · exact ⟨c, hcr, hnc, hov⟩
    · by_cases hov : dt < a.data_hora_inicio + CONSULTA_DURATION ∧
          dt + CONSULTA_DURATION > a.data_hora_inicio
      · rw [if_neg ha, if_pos hov]
        simp only [true_iff]
        exact ⟨a, List.mem_cons_self _ _, ha, hov⟩
      · rw [if_neg ha, if_neg hov, ih]
        constructor
        · rintro ⟨c, hc, hnc, h1⟩
          exact ⟨c, List.mem_cons_of_mem _ hc, hnc, h1⟩
        · rintro ⟨c, hc, hnc, h1⟩
          rcases List.mem_cons.mp hc with hce | hcr
          · subst hce; exact absurd h1 hov
          · exact ⟨c, hcr, hnc, h1⟩

/-- C2: `is_within_working_hours` rejects Saturday/Sunday with the
weekday reason; on a weekday it accepts exactly when the start
time-of-day is at or after 08:00 and the time-of-day of start + 30min is
at or before 18:00, rejecting otherwise with the 08:00/18:00 reason; in
particular (on Monday 2025-11-10) 08:00 and 17:30 are valid while 17:31
and 07:59 are not. -/
theorem C2_working_hours (dt : Nat) :
    (5 ≤ weekday dt →
      is_within_working_hours dt =
        (false, "Agendamentos são permitidos apenas de segunda a sexta.")) ∧
    (weekday dt < 5 →
      (is_within_working_hours dt = (true, "") ↔
        (CLINIC_OPEN ≤ timeOfDay dt ∧
          timeOfDay (dt + CONSULTA_DURATION) ≤ CLINIC_CLOSE)) ∧
      (¬(CLINIC_OPEN ≤ timeOfDay dt ∧
          timeOfDay (dt + CONSULTA_DURATION) ≤ CLINIC_CLOSE) →
        is_within_working_hours dt =
          (false, "O horário deve ser entre 08:00 e 18:00."))) ∧
    is_within_working_hours (mkDT 2025 11 10 8 0) = (true, "") ∧
    is_within_working_hours (mkDT 2025 11 10 17 30) = (true, "") ∧
    is_within_working_hours (mkDT 2025 11 10 17 31) =
      (false, "O horário deve ser entre 08:00 e 18:00.") ∧
    is_within_working_hours (mkDT 2025 11 10 7 59) =
      (false, "O horário deve ser entre 08:00 e 18:00.") := by
  refine ⟨?_, ?_, by decide, by decide, by decide, by decide⟩
  · intro hwd
    unfold is_within_working_hours
    rw [if_pos hwd]
  · intro hwd
    have hnw : ¬(5 ≤ weekday dt) := by omega
    constructor
    · constructor
      · intro heq
        by_contra hcond
        unfold is_within_working_hours at heq
        rw [if_neg hnw, if_neg hcond] at heq
        simp at heq
      · intro hcond
        unfold is_within_working_hours
        rw [if_neg hnw, if_pos hcond]
    · intro hcond
      unfold is_within_working_hours
      rw [if_neg hnw, if_neg hcond]

/-- C2 witness: the Saturday branch and the weekday characterisation at
concrete timestamps. -/
theorem C2_working_hours_witness :
    5 ≤ weekday (mkDT 2025 11 8 10 0) ∧
    is_within_working_hours (mkDT 2025 11 8 10 0) =
      (false, "Agendamentos são permitidos apenas de segunda a sexta.") ∧
    weekday (mkDT 2025 11 10 10 0) < 5 ∧
    (is_within_working_hours (mkDT 2025 11 10 10 0) = (true, "") ↔
      (CLINIC_OPEN ≤ timeOfDay (mkDT 2025 11 10 10 0) ∧
        timeOfDay (mkDT 2025 11 10 10 0 + CONSULTA_DURATION) ≤ CLINIC_CLOSE)) :=
  ⟨by decide, (C2_working_hours (mkDT 2025 11 8 10 0)).1 (by decide),
    by decide, ((C2_working_hours (mkDT 2025 11 10 10 0)).2.1 (by decide)).1⟩

/-- C7: on a weekday, any start whose time-of-day is 23:30 or later is
accepted by `is_within_working_hours`, because the end bound is the
time-of-day of start + 30min, which wraps past midnight to at most 00:30
and therefore compares below 18:00. -/
theorem C7_midnight_wrap (dt : Nat) (hwd : weekday dt < 5)
    (hlate : 1410 ≤ timeOfDay dt) :
    is_within_working_hours dt = (true, "") ∧
      timeOfDay (dt + CONSULTA_DURATION) ≤ 30 := by
  have hnw : ¬(5 ≤ weekday dt) := by omega
  have hmod : dt % 1440 < 1440 := Nat.mod_lt _ (by omega)
  have hlate2 : 1410 ≤ dt % 1440 := hlate
  have hwrap : (dt + 30) % 1440 = dt % 1440 + 30 - 1440 := by omega
  have hcond : CLINIC_OPEN ≤ timeOfDay dt ∧
      timeOfDay (dt + CONSULTA_DURATION) ≤ CLINIC_CLOSE := by
    unfold timeOfDay CLINIC_OPEN CLINIC_CLOSE CONSULTA_DURATION
    omega
  constructor
  · unfold is_within_working_hours
    rw [if_neg hnw, if_pos hcond]
  · unfold timeOfDay CONSULTA_DURATION
    omega

/-- C7 witness: Monday 2025-11-10 at 23:30 is accepted. -/
theorem C7_midnight_wrap_witness :
    weekday (mkDT 2025 11 10 23 30) < 5 ∧
    1410 ≤ timeOfDay (mkDT 2025 11 10 23 30) ∧
    (is_within_working_hours (mkDT 2025 11 10 23 30) = (true, "") ∧
      timeOfDay (mkDT 2025 11 10 23 30 + CONSULTA_DURATION) ≤ 30) :=
  ⟨by decide, by decide,
    C7_midnight_wrap (mkDT 2025 11 10 23 30) (by decide) (by decide)⟩

/-- The per-record test of the `check_availability` loop: record not
cancelled and half-open 30-minute overlap with the candidate start. -/
def conflictsWith (dt : Nat) (c : Consulta) : Bool :=
  !(c.status == "cancelada") &&
    (decide (dt < c.data_hora_inicio + 30) &&
      decide (dt + 30 > c.data_hora_inicio))

/-- C8: `check_availability` returns unavailable naming the patient of
the first non-cancelled conflicting record in iteration order, and
available with an empty reason when no scheduled record conflicts. -/
theorem C8_first_conflict (consultas : List Consulta) (dt : Nat) :
    check_availability consultas dt =
      match consultas.find? (conflictsWith dt) with
      | some c =>
        (false, "Horário em conflito com a consulta de " ++ c.paciente ++ ".")
      | none => (true, "") := by
  induction consultas with
  | nil => rfl
  | cons a rest ih =>
    unfold check_availability
    by_cases ha : a.status = "cancelada"
    · rw [if_pos ha, ih]
      have hp : ¬(conflictsWith dt a = true) := by
        simp [conflictsWith, ha]
      rw [List.find?_cons_of_neg _ hp]
    · by_cases hov : dt < a.data_hora_inicio + CONSULTA_DURATION ∧
          dt + CONSULTA_DURATION > a.data_hora_inicio
      · rw [if_neg ha, if_pos hov]
        have hov30 : dt < a.data_hora_inicio + 30 ∧
            dt + 30 > a.data_hora_inicio := hov
        have hp : conflictsWith dt a = true := by
          simp [conflictsWith, ha]
          exact ⟨hov30.1, hov30.2⟩
        rw [List.find?_cons_of_pos _ hp]
      · rw [if_neg ha, if_neg hov, ih]
        have hov30 : ¬(dt < a.data_hora_inicio + 30 ∧
            dt + 30 > a.data_hora_inicio) := hov
        have hp : ¬(conflictsWith dt a = true) := by
          simp [conflictsWith, ha]
          intro h1
          omega
        rw [List.find?_cons_of_neg _ hp]

/-- C3: when parsing, the office-hours check and the conflict check all
pass, `agendar_consulta` creates exactly one record with
id = length of the loaded list + 1, status `"marcada"`, duration 30,
the given patient and parsed start, appends it to the loaded list, saves
the full list and returns the new record with the success message. -/
theorem C3_schedule_success (p d h : String) (s : List Consulta) (dt : Nat)
    (hparse : fromisoformat d h = some dt)
    (hhours : (is_within_working_hours dt).1 = true)
    (hav : (check_availability s dt).1 = true) :
    agendar_consulta p d h s =
      (some ⟨s.length + 1, p, dt, 30, "marcada"⟩,
       "Consulta agendada com sucesso!",
       s ++ [⟨s.length + 1, p, dt, 30, "marcada"⟩],
       [StoreEvent.load, StoreEvent.save]) := by
  unfold agendar_consulta
  rw [hparse]
  simp [hhours, hav]

/-- C3 witness: the spec scenario — on an empty store,
`agendar_consulta "Ana" "2025-11-10" "10:00"` succeeds with id 1. -/
theorem C3_schedule_success_witness :
    fromisoformat "2025-11-10" "10:00" = some (mkDT 2025 11 10 10 0) ∧
    (is_within_working_hours (mkDT 2025 11 10 10 0)).1 = true ∧
    (check_availability [] (mkDT 2025 11 10 10 0)).1 = true ∧
    agendar_consulta "Ana" "2025-11-10" "10:00" [] =
      (some ⟨1, "Ana", mkDT 2025 11 10 10 0, 30, "marcada"⟩,
       "Consulta agendada com sucesso!",
       [⟨1, "Ana", mkDT 2025 11 10 10 0, 30, "marcada"⟩],
       [StoreEvent.load, StoreEvent.save]) :=
  ⟨by decide, by decide, by decide,
    C3_schedule_success "Ana" "2025-11-10" "10:00" [] (mkDT 2025 11 10 10 0)
      (by decide) (by decide) (by decide)⟩

/-- C4: every failing `agendar_consulta` call returns no record together
with exactly the failure's reason, leaves the stored list unchanged and
performs no save; parse and office-hours failures perform no load
either, while a conflict failure performs exactly one load. -/
theorem C4_schedule_failure (p d h : String) (s : List Consulta) :
    (fromisoformat d h = none →
      agendar_consulta p d h s =
        (none, "Formato de data ou hora inválido. Use AAAA-MM-DD e HH:MM.",
         s, [])) ∧
    (∀ dt, fromisoformat d h = some dt →
      (is_within_working_hours dt).1 = false →
      agendar_consulta p d h s =
        (none, (is_within_working_hours dt).2, s, [])) ∧
    (∀ dt, fromisoformat d h = some dt →
      (is_within_working_hours dt).1 = true →
      (check_availability s dt).1 = false →
      agendar_consulta p d h s =
        (none, (check_availability s dt).2, s, [StoreEvent.load])) := by
  refine ⟨?_, ?_, ?_⟩
  · intro hparse
    unfold agendar_consulta
    rw [hparse]
  · intro dt hparse hhours
    unfold agendar_consulta
    rw [hparse]
    simp [hhours]
  · intro dt hparse hhours hav
    unfold agendar_consulta
    rw [hparse]
    simp [hhours, hav]

/-- C4 witness: a malformed date, a Saturday start, and a conflicting
start each fail with the matching reason, unchanged store and the
expected storage trace. -/
theorem C4_schedule_failure_witness :
    fromisoformat "25/11/2025" "14:00" = none ∧
    agendar_consulta "A" "25/11/2025" "14:00" [] =
      (none, "Formato de data ou hora inválido. Use AAAA-MM-DD e HH:MM.",
       [], []) ∧
    fromisoformat "2025-11-08" "10:00" = some (mkDT 2025 11 8 10 0) ∧
    (is_within_working_hours (mkDT 2025 11 8 10 0)).1 = false ∧
    agendar_consulta "B" "2025-11-08" "10:00" [] =
      (none, "Agendamentos são permitidos apenas de segunda a sexta.",
       [], []) ∧
    fromisoformat "2025-11-14" "15:00" = some (mkDT 2025 11 14 15 0) ∧
    (check_availability [⟨1, "Maria Silva", mkDT 2025 11 14 15 0, 30, "marcada"⟩]
      (mkDT 2025 11 14 15 0)).1 = false ∧
    agendar_consulta "C" "2025-11-14" "15:00"
        [⟨1, "Maria Silva", mkDT 2025 11 14 15 0, 30, "marcada"⟩] =
      (none, "Horário em conflito com a consulta de Maria Silva.",
       [⟨1, "Maria Silva", mkDT 2025 11 14 15 0, 30, "marcada"⟩],
       [StoreEvent.load]) :=
  ⟨by decide,
    (C4_schedule_failure "A" "25/11/2025" "14:00" []).1 (by decide),
    by decide, by decide,
    (C4_schedule_failure "B" "2025-11-08" "10:00" []).2.1
      (mkDT 2025 11 8 10 0) (by decide) (by decide),
    by decide, by decide,
    (C4_schedule_failure "C" "2025-11-14" "15:00"
        [⟨1, "Maria Silva", mkDT 2025 11 14 15 0, 30, "marcada"⟩]).2.2
      (mkDT 2025 11 14 15 0) (by decide) (by decide) (by decide)⟩

/-- C9: `listar_consultas` returns exactly the subsequence of stored
records whose status is `"marcada"`, in load order, each unchanged;
cancelled records are excluded and no save happens. -/
theorem C9_list_active (s : List Consulta) :
    ((listar_consultas s).1.Sublist s) ∧
    (listar_consultas s).1 = s.filter (fun c => c.status = "marcada") ∧
    (∀ c ∈ (listar_consultas s).1, c.status = "marcada") ∧
    (∀ c ∈ s, c.status = "marcada" → c ∈ (listar_consultas s).1) ∧
    (listar_consultas s).2 = [StoreEvent.load] := by
  refine ⟨List.filter_sublist s, rfl, ?_, ?_, rfl⟩
  · intro c hc
    have := List.of_mem_filter hc
    simpa using this
  · intro c hc hm
    exact List.mem_filter.mpr ⟨hc, by simpa using hm⟩

/-- C6: `cancelar_consulta` flips the first record matching the id with
status `"marcada"` to `"cancelada"` (only that record), saves, and
returns success with the patient's name in the message; when no such
record exists it returns the single generic failure reason and performs
no save. -/
theorem C6_cancel (cid : Nat) (s : List Consulta) :
    (∀ i (hi : i < s.length),
      (s.get ⟨i, hi⟩).id = cid →
      (s.get ⟨i, hi⟩).status = "marcada" →
      (∀ j (hj : j < s.length), j < i →
        ¬((s.get ⟨j, hj⟩).id = cid ∧ (s.get ⟨j, hj⟩).status = "marcada")) →
      cancelar_consulta cid s =
        (true,
         "Consulta " ++ toString cid ++ " de " ++ (s.get ⟨i, hi⟩).paciente
           ++ " cancelada.",
         s.set i (setCancelada (s.get ⟨i, hi⟩)),
         [StoreEvent.load, StoreEvent.save])) ∧
    ((∀ c ∈ s, ¬(c.id = cid ∧ c.status = "marcada")) →
      cancelar_consulta cid s =
        (false,
         "Consulta ID " ++ toString cid ++ " não encontrada ou já cancelada.",
         s, [StoreEvent.load])) := by
  constructor
  · intro i hi hid hst hfirst
    unfold cancelar_consulta
    rw [cancelScan_first s cid i hi hid hst hfirst]
    rfl
  · intro hnone
    unfold cancelar_consulta
    rw [cancelScan_none s cid hnone]

/-- C6 witness: cancelling id 2 in a two-record store flips exactly the
second record and names Bob; cancelling an absent id fails generically
with no save. -/
theorem C6_cancel_witness :
    (([⟨1, "Ana", mkDT 2025 11 10 10 0, 30, "marcada"⟩,
       ⟨2, "Bob", mkDT 2025 11 10 11 0, 30, "marcada"⟩] :
        List Consulta).get ⟨1, by decide⟩).id = 2 ∧
    cancelar_consulta 2
        [⟨1, "Ana", mkDT 2025 11 10 10 0, 30, "marcada"⟩,
         ⟨2, "Bob", mkDT 2025 11 10 11 0, 30, "marcada"⟩] =
      (true, "Consulta 2 de Bob cancelada.",
       [⟨1, "Ana", mkDT 2025 11 10 10 0, 30, "marcada"⟩,
        ⟨2, "Bob", mkDT 2025 11 10 11 0, 30, "cancelada"⟩],
       [StoreEvent.load, StoreEvent.save]) ∧
    cancelar_consulta 3
        [⟨1, "Ana", mkDT 2025 11 10 10 0, 30, "marcada"⟩,
         ⟨2, "Bob", mkDT 2025 11 10 11 0, 30, "cancelada"⟩] =
      (false, "Consulta ID 3 não encontrada ou já cancelada.",
       [⟨1, "Ana", mkDT 2025 11 10 10 0, 30, "marcada"⟩,
        ⟨2, "Bob", mkDT 2025 11 10 11 0, 30, "cancelada"⟩],
       [StoreEvent.load]) :=
  ⟨by decide,
    (C6_cancel 2
        [⟨1, "Ana", mkDT 2025 11 10 10 0, 30, "marcada"⟩,
         ⟨2, "Bob", mkDT 2025 11 10 11 0, 30, "marcada"⟩]).1
      1 (by decide) (by decide) (by decide)
      (fun j hj hlt => by
        have hj0 : j = 0 := by omega
        subst hj0
        simp),
    (C6_cancel 3
        [⟨1, "Ana", mkDT 2025 11 10 10 0, 30, "marcada"⟩,
         ⟨2, "Bob", mkDT 2025 11 10 11 0, 30, "cancelada"⟩]).2
      (by decide)⟩

theorem step_preserves_pairwise {s t : List Consulta} (hstep : Step s t)
    (hp : s.Pairwise SchedRel) : t.Pairwise SchedRel := by
  cases hstep with
  | sched p d h s =>
    rcases agendar_state_cases p d h s with heq | ⟨dt, _, hav, heq⟩
    · rw [heq]; exact hp
    · rw [heq]
      rw [List.pairwise_append]
      refine ⟨hp, List.pairwise_singleton _ _, ?_⟩
      intro a ha b hb
      have hb1 : b = (⟨s.length + 1, p, dt, 30, "marcada"⟩ : Consulta) := by
        simpa using hb
      subst hb1
      intro hma _
      have hanc : a.status ≠ "cancelada" := by
        rw [hma]; decide
      have hns := check_availability_sound s dt hav a ha hanc
      unfold CONSULTA_DURATION at hns
      intro hcon
      have hcon2 : a.data_hora_inicio < dt + 30 ∧
          dt < a.data_hora_inicio + 30 := hcon
      exact hns ⟨by omega, by omega⟩
  | cancel cid s =>
    cases hscan : cancelScan s cid with
    | none =>
      have heq : (cancelar_consulta cid s).2.2.1 = s := by
        unfold cancelar_consulta
        rw [hscan]
      rw [heq]; exact hp
    | some pr =>
      obtain ⟨l2, c⟩ := pr
      have heq : (cancelar_consulta cid s).2.2.1 = l2 := by
        unfold cancelar_consulta
        rw [hscan]
      rw [heq]
      exact cancelScan_pairwise s cid l2 c hscan hp

/-- C5: in every store reachable from the empty file by schedule and
cancel operations, no two `"marcada"` records have overlapping
half-open `[start, start+30)` intervals. -/
theorem C5_no_double_booking (l : List Consulta) (hr : Reachable l) :
    l.Pairwise SchedRel := by
  induction hr with
  | empty => exact List.Pairwise.nil
  | step _ hstep ih => exact step_preserves_pairwise hstep ih

/-- C5 witness: the store reached by one successful schedule call is
pairwise overlap-free. -/
theorem C5_no_double_booking_witness :
    Reachable ((agendar_consulta "Ana" "2025-11-10" "10:00" []).2.2.1) ∧
    ((agendar_consulta "Ana" "2025-11-10" "10:00" []).2.2.1).Pairwise SchedRel :=
  have hr : Reachable ((agendar_consulta "Ana" "2025-11-10" "10:00" []).2.2.1) :=
    Reachable.step Reachable.empty (Step.sched "Ana" "2025-11-10" "10:00" [])
  ⟨hr, C5_no_double_booking _ hr⟩

/-- C10: in every reachable store the record ids are exactly `1..n` in
list order, hence pairwise distinct; schedule assigns the fresh id
`length + 1` and cancel changes no id. -/
theorem step_preserves_ids {s t : List Consulta} (hstep : Step s t)
    (hid : s.map (fun c => c.id) = List.range' 1 s.length) :
    t.map (fun c => c.id) = List.range' 1 t.length := by
  cases hstep with
  | sched p d h s =>
    rcases agendar_state_cases p d h s with heq | ⟨dt, _, _, heq⟩
    · rw [heq]; exact hid
    · rw [heq]
      rw [List.map_append, List.length_append, hid]
      simp [range'_snoc 1 s.length, Nat.add_comm 1 s.length]
  | cancel cid s =>
    cases hscan : cancelScan s cid with
    | none =>
      have heq : (cancelar_consulta cid s).2.2.1 = s := by
        unfold cancelar_consulta
        rw [hscan]
      rw [heq]; exact hid
    | some pr =>
      obtain ⟨l2, c⟩ := pr
      have hst : (cancelar_consulta cid s).2.2.1 = l2 := by
        unfold cancelar_consulta
        rw [hscan]
      have hmap := cancelScan_map_id s cid l2 c hscan
      have hlen : l2.length = s.length := by
        have hml := congrArg List.length hmap
        simpa using hml
      rw [hst, hmap, hlen, hid]

/-- C10: in every reachable store the record ids are exactly `1..n` in
list order, hence pairwise distinct; schedule assigns the fresh id
`length + 1` and cancel changes no id. -/
theorem C10_ids (l : List Consulta) (hr : Reachable l) :
    l.map (fun c => c.id) = List.range' 1 l.length ∧
      (l.map (fun c => c.id)).Nodup := by
  have hmain : l.map (fun c => c.id) = List.range' 1 l.length := by
    induction hr with
    | empty => rfl
    | step _ hstep ih => exact step_preserves_ids hstep ih
  refine ⟨hmain, ?_⟩
  rw [hmain]
  exact List.nodup_range' _ _

/-- C10 witness: after one successful schedule call the stored ids are
exactly `[1]`, with no duplicates. -/
theorem C10_ids_witness :
    Reachable ((agendar_consulta "Ana" "2025-11-10" "10:00" []).2.2.1) ∧
    (((agendar_consulta "Ana" "2025-11-10" "10:00" []).2.2.1).map (fun c => c.id) =
      List.range' 1 ((agendar_consulta "Ana" "2025-11-10" "10:00" []).2.2.1).length ∧
      (((agendar_consulta "Ana" "2025-11-10" "10:00" []).2.2.1).map (fun c => c.id)).Nodup) :=
  have hr : Reachable ((agendar_consulta "Ana" "2025-11-10" "10:00" []).2.2.1) :=
    Reachable.step Reachable.empty (Step.sched "Ana" "2025-11-10" "10:00" [])
  ⟨hr, C10_ids _ hr⟩
